import Mathlib

/-!
Verification of the webhook-driven git synchronization server
(`src/Rust Version/src/main.rs`, 221 lines) against its specification.

The embedding is a shallow one over Unix path semantics:
* `validate_path` embeds the regex check `^[\w\-_/\\\.]+$` (main.rs:108-111);
  the regex class `\w` is modelled as ASCII alphanumeric or underscore
  (the inputs relevant to the claims are all ASCII).
* Paths are resolved lexically: a path string is split on `'/'` into
  components, and `..`/`.`/empty components are normalized with the usual
  stack discipline, mirroring what the kernel does when the handler later
  touches `root.join(subpath)` on disk (symlink-free case).
* `update_git_repository` embeds main.rs:79-106 over an explicit repository
  state; libgit2 calls are given their documented semantics (in particular
  `Repository::cleanup_state` removes in-progress operation metadata such as
  MERGE_HEAD — it does not delete untracked files), and fallible external
  effects (network fetch, reset, checkout) carry explicit success oracles.
* `handle_webhook` embeds main.rs:113-159, returning the response outcome
  together with the restart latch value after the request.
* `drainCycle`/`armLatch` embed the restart latch protocol of
  main.rs:151-153 and main.rs:161-181; one `drainCycle` is one iteration of
  the `loop`, whose read-and-clear of the flag happens inside a single
  mutex acquisition (main.rs:165-170) and is therefore one atomic step here.
-/

/-- A character accepted by the validator regex class `[\w\-_/\\\.]`
(main.rs:109): word characters (`\w`, modelled as ASCII alphanumeric or
underscore), hyphen, underscore, forward slash, backslash, dot. -/
def isAllowedChar (c : Char) : Bool :=
  c.isAlphanum || c = '_' || c = '-' || c = '/' || c = '\\' || c = '.'

/-- Embedding of `validate_path` (main.rs:108-111): the regex `^[\w\-_/\\\.]+$` matches
exactly the non-empty strings all of whose characters are in the allow-list.
It is a pure function: the embedding has no effects at all. -/
def validate_path (path : String) : Bool :=
  !path.toList.isEmpty && path.toList.all isAllowedChar

/-- Split a character list into path components at `'/'` separators
(Unix path semantics; `'\\'` is an ordinary filename character on Unix). -/
def splitComps : List Char → List (List Char)
  | [] => [[]]
  | c :: rest =>
    if c = '/' then [] :: splitComps rest
    else
      match splitComps rest with
      | [] => [[c]]
      | w :: ws => (c :: w) :: ws

/-- One step of lexical path normalization: empty components and `.` are
skipped, `..` pops the last component, anything else is pushed. -/
def normStep (stack : List (List Char)) (c : List Char) : List (List Char) :=
  if c = [] ∨ c = ['.'] then stack
  else if c = ['.', '.'] then stack.dropLast
  else stack ++ [c]

/-- Normalize a component list to the list of real path components. -/
def resolveComps (comps : List (List Char)) : List (List Char) :=
  comps.foldl normStep []

/-- Resolve a path string to its normalized component list. -/
def resolve (s : String) : List (List Char) :=
  resolveComps (splitComps s.toList)

/-- A Unix path is absolute when it starts with `'/'`
(as `std::path::Path::is_absolute` decides it). -/
def pathIsAbsolute (s : String) : Bool :=
  s.toList.head? == some '/'

/-- Embedding of `PathBuf::join` as used at main.rs:141: joining an absolute path replaces
the base; otherwise the segment is appended after a separator.  (When the
base already ends in `'/'`, `PathBuf::push` omits the duplicate separator;
the two spellings resolve to the same component list because empty
components are skipped by `normStep`.) -/
def joinPath (root seg : String) : String :=
  if pathIsAbsolute seg then seg else root ++ "/" ++ seg

/-- Predicate: `root` is a strict ancestor of `p`, both given as normalized component
lists: `root` is a proper prefix of `p`. -/
def strictlyInside (root p : List (List Char)) : Bool :=
  decide (root.length < p.length) && (p.take root.length == root)

/-- Errors of `update_git_repository` (main.rs:79-106): one constructor per
`?` site that can fail in the embedding. -/
inductive GitError where
  | openFailed
  | noHead
  | resetFailed
  | cleanupFailed
  | remoteMissing
  | fetchFailed
  | fetchHeadMissing
  | checkoutFailed
deriving DecidableEq, Repr

/-- State of one on-disk repository as seen by `update_git_repository`.
Commit ids are `Nat`; `workTreeCommit`/`indexCommit` record which commit
snapshot the tracked content of the working tree/index currently matches.
`fetchOk`, `resetOk`, `cleanupOk`, `checkoutOk` are success oracles for the
corresponding fallible external operations, and `ffAnalysis` records the
outcome of libgit2's `merge_analysis` call (its fast-forward bit). -/
structure Repo where
  valid : Bool
  headRef : String
  masterTarget : Option Nat
  headCommit : Option Nat
  workTreeCommit : Option Nat
  indexCommit : Option Nat
  localDirty : Bool
  untracked : List String
  inProgressOp : Bool
  hasOrigin : Bool
  originMaster : Option Nat
  fetchHead : Option Nat
  fetchOk : Bool
  resetOk : Bool
  cleanupOk : Bool
  ffAnalysis : Bool
  checkoutOk : Bool
deriving DecidableEq, Repr

/-- Embedding of `update_git_repository` (main.rs:79-106), step by step:
open the repository; peel HEAD to a commit; hard-reset working tree and
index to it; call `cleanup_state` — per libgit2's documentation this removes
the metadata of an in-progress operation (MERGE_HEAD and friends) and does
NOT delete untracked files, the comment at main.rs:86 notwithstanding;
find the `origin` remote; fetch `master` (setting FETCH_HEAD); run
`merge_analysis`; if and only if it reports fast-forward, advance
`refs/heads/master` to the fetched commit, point HEAD at it and force
checkout (which overwrites tracked content but leaves untracked files). -/
def update_git_repository (r : Repo) : Except GitError Repo :=
  if !r.valid then .error .openFailed else
  match r.headCommit with
  | none => .error .noHead
  | some head =>
    if !r.resetOk then .error .resetFailed else
    let r1 : Repo :=
      { r with workTreeCommit := some head, indexCommit := some head,
               localDirty := false }
    if !r1.cleanupOk then .error .cleanupFailed else
    let r2 : Repo := { r1 with inProgressOp := false }
    if !r2.hasOrigin then .error .remoteMissing else
    if !r2.fetchOk then .error .fetchFailed else
    let r3 : Repo := { r2 with fetchHead := r2.originMaster }
    match r3.fetchHead with
    | none => .error .fetchHeadMissing
    | some fc =>
      if r3.ffAnalysis then
        let r4 : Repo :=
          { r3 with masterTarget := some fc, headRef := "refs/heads/master" }
        if !r4.checkoutOk then .error .checkoutFailed else
        .ok { r4 with headCommit := some fc, workTreeCommit := some fc,
                      localDirty := false }
      else
        .ok r3

/-- The repository state reached after the reset, clean and fetch steps of
`update_git_repository` (main.rs:83-91), before the merge analysis. -/
def afterFetchSteps (r : Repo) : Repo :=
  { r with workTreeCommit := r.headCommit, indexCommit := r.headCommit,
           localDirty := false, inProgressOp := false,
           fetchHead := r.originMaster }

/-- Embedding of `ApiResponse` (main.rs:40-44). -/
structure ApiResponse where
  status : String
  message : String
deriving DecidableEq, Repr

/-- Embedding of `ServerError` (main.rs:51-61). -/
inductive ServerError where
  | GitError (e : GitError)
  | InvalidPath (s : String)
  | RepoNotFound (p : String)
  | Unauthorized
deriving DecidableEq, Repr

/-- Embedding of `ServerConfig` (main.rs:33-38). -/
structure ServerConfig where
  git_repo_dir : String
  security_token : Option String
  debug : Bool
deriving DecidableEq, Repr

/-- One inbound webhook request: the trailing path segment, and the
`X-Security-Token` header when present and valid (header absence and a
non-UTF-8 header value both collapse to `none`, exactly as
`get(..).and_then(|h| h.to_str().ok())` does at main.rs:120-123). -/
structure Request where
  subpath : String
  token : Option String
deriving DecidableEq, Repr

/-- The parts of the filesystem the handler consults: which paths are
existing directories, and the repository state found at each path. -/
structure World where
  dirs : List String
  repos : List (String × Repo)
deriving DecidableEq, Repr

/-- Embedding of `Path::is_dir` as used at main.rs:144. -/
def isDir (w : World) (p : String) : Bool :=
  w.dirs.contains p

/-- The state of a path that holds no repository: `Repository::open` fails
on it. -/
def noRepo : Repo :=
  { valid := false, headRef := "", masterTarget := none, headCommit := none,
    workTreeCommit := none, indexCommit := none, localDirty := false,
    untracked := [], inProgressOp := false, hasOrigin := false,
    originMaster := none, fetchHead := none, fetchOk := false,
    resetOk := false, cleanupOk := false, ffAnalysis := false,
    checkoutOk := false }

/-- The repository state at a path. -/
def repoAt (w : World) (p : String) : Repo :=
  match w.repos.lookup p with
  | some r => r
  | none => noRepo

/-- The security-token check of main.rs:119-128: with no configured secret
the check passes unconditionally (the header is not even read); with a
configured secret it passes exactly when the supplied token equals it. -/
def authOk (cfg : ServerConfig) (req : Request) : Bool :=
  match cfg.security_token with
  | none => true
  | some expected => req.token == some expected

/-- Embedding of `handle_webhook` (main.rs:113-159).  Returns the response outcome and
the value of the shared restart latch after the request: the latch is
assigned `true` at main.rs:152-153 only on the all-success path, every
error path leaves it untouched. -/
def handle_webhook (cfg : ServerConfig) (w : World) (latch : Bool)
    (req : Request) : Except ServerError ApiResponse × Bool :=
  if !authOk cfg req then (.error .Unauthorized, latch)
  else if !validate_path req.subpath then
    (.error (.InvalidPath req.subpath), latch)
  else
    let repo_path := joinPath cfg.git_repo_dir req.subpath
    if !isDir w repo_path then (.error (.RepoNotFound repo_path), latch)
    else
      match update_git_repository (repoAt w repo_path) with
      | .error e => (.error (.GitError e), latch)
      | .ok _ => (.ok ⟨"success", "Repository updated"⟩, true)

/-- The HTTP status produced by `ServerError::error_response`
(main.rs:63-77): 401 for `Unauthorized`, 404 for `RepoNotFound`, 400 for
`InvalidPath`, 500 for everything else. -/
def statusCodeOf : ServerError → Nat
  | .Unauthorized => 401
  | .RepoNotFound _ => 404
  | .InvalidPath _ => 400
  | _ => 500

/-- HTTP status of a handler outcome: errors via `error_response`, success
via `HttpResponse::Ok` (main.rs:155). -/
def responseStatus : Except ServerError ApiResponse → Nat
  | .error e => statusCodeOf e
  | .ok _ => 200

/-- State observed of the restart mechanism: the shared boolean latch, and
counters of how often the drain has attempted, and succeeded at, creating
the marker file `/tmp/webhook_restart_trigger`. -/
structure DrainState where
  latch : Bool
  writeAttempts : Nat
  markerWrites : Nat
deriving DecidableEq, Repr

/-- Arming the latch (main.rs:152-153): `*should_restart = true`. -/
def armLatch (s : DrainState) : DrainState :=
  { s with latch := true }

/-- Applying `n` consecutive armings of the latch. -/
def armN : Nat → DrainState → DrainState
  | 0, s => s
  | n + 1, s => armN n (armLatch s)

/-- One iteration of the `monitor_restart` loop (main.rs:164-180),
parameterized by whether `File::create` would succeed this cycle.  The
flag is read and reset to `false` inside one mutex acquisition
(main.rs:165-170), so the read-and-clear is a single atomic step.  Only
if the read value was `true` is one marker write attempted; a failed
write is discarded by the `if let Ok` at main.rs:174 with no further
action (and no error log), and the latch stays cleared either way. -/
def drainCycle (writeOk : Bool) (s : DrainState) : DrainState :=
  let restart := s.latch
  let s1 : DrainState := { s with latch := false }
  if restart then
    { s1 with writeAttempts := s1.writeAttempts + 1,
              markerWrites :=
                if writeOk then s1.markerWrites + 1 else s1.markerWrites }
  else s1

theorem splitComps_ne_nil (cs : List Char) : splitComps cs ≠ [] := by
  match cs with
  | [] => simp [splitComps]
  | c :: rest =>
    simp only [splitComps]
    split
    · simp
    · match h : splitComps rest with
      | [] => simp
      | w :: ws => simp

theorem splitComps_append (a b : List Char) :
    splitComps (a ++ '/' :: b) = splitComps a ++ splitComps b := by
  induction a with
  | nil => simp [splitComps]
  | cons c a ih =>
    by_cases hc : c = '/'
    · subst hc
      simp [splitComps, ih]
    · cases h : splitComps a with
      | nil => exact absurd h (splitComps_ne_nil a)
      | cons w ws =>
        simp only [List.cons_append, splitComps, if_neg hc, List.append_eq]
        rw [ih, h]
        simp

theorem foldl_normStep_plain (B : List (List Char)) (st : List (List Char))
    (hB : ∀ c ∈ B, c ≠ [] ∧ c ≠ ['.'] ∧ c ≠ ['.', '.']) :
    B.foldl normStep st = st ++ B := by
  induction B generalizing st with
  | nil => simp
  | cons c B ih =>
    obtain ⟨h1, h2, h3⟩ := hB c (by simp)
    simp only [List.foldl_cons]
    rw [normStep, if_neg (by simp [h1, h2]), if_neg h3]
    rw [ih _ (fun d hd => hB d (by simp [hd]))]
    simp

theorem resolve_join (root seg : String) (habs : pathIsAbsolute seg = false) :
    resolve (joinPath root seg) =
      (splitComps seg.toList).foldl normStep (resolve root) := by
  rw [joinPath, habs]
  simp only [Bool.false_eq_true, if_false, resolve, resolveComps]
  have h : (root ++ "/" ++ seg).toList = root.toList ++ '/' :: seg.toList := by
    simp [String.toList, String.data_append]
  rw [h, splitComps_append, List.foldl_append]

theorem plain_not_abs (seg : String)
    (hcomp : ∀ c ∈ splitComps seg.toList, c ≠ [] ∧ c ≠ ['.'] ∧ c ≠ ['.', '.']) :
    pathIsAbsolute seg = false := by
  rw [pathIsAbsolute]
  cases hs : seg.toList with
  | nil =>
    exfalso
    exact (hcomp [] (by rw [hs]; simp [splitComps])).1 rfl
  | cons c rest =>
    by_cases hc : c = '/'
    · exfalso
      refine (hcomp [] ?_).1 rfl
      rw [hs, hc]
      simp [splitComps]
    · simp [hc]

/-- C1, as stated, is false of the code: the segment `..` consists only of
allow-listed characters (dots), so `validate_path` accepts it, yet joining
it to the root `/srv/repos` resolves to `/srv`, which is outside the root.
The handler (main.rs:135-147) performs no canonicalization or containment
check between validation and filesystem access. -/
theorem C1_counterexample :
    validate_path ".." = true ∧
    strictlyInside (resolve "/srv/repos")
      (resolve (joinPath "/srv/repos" "..")) = false := by
  decide

/-- C1 (amended): the containment invariant holds only for the accepted
segments that are free of traversal material: if every `/`-separated
component of the segment is a plain name (non-empty, not `.`, not `..` —
which also rules out an absolute segment, whose first component is empty),
then the joined path resolves strictly inside the configured root.
Segments built from `..` sequences of allow-listed characters escape the
root, as `C1_counterexample` shows. -/
theorem C1_plain_segments_stay_inside (root seg : String)
    (hacc : validate_path seg = true)
    (hcomp : ∀ c ∈ splitComps seg.toList, c ≠ [] ∧ c ≠ ['.'] ∧ c ≠ ['.', '.']) :
    strictlyInside (resolve root) (resolve (joinPath root seg)) = true := by
  have _ := hacc
  have habs := plain_not_abs seg hcomp
  rw [resolve_join root seg habs, foldl_normStep_plain _ _ hcomp]
  have hne : splitComps seg.toList ≠ [] := splitComps_ne_nil _
  have hlen : 0 < (splitComps seg.toList).length := List.length_pos.mpr hne
  simp only [strictlyInside, List.length_append, List.take_left,
    beq_self_eq_true, Bool.and_eq_true, decide_eq_true_eq, and_true]
  omega

/-- Witness for `C1_plain_segments_stay_inside` at the concrete root
`/srv/repos` and the accepted plain segment `webapp/site-2`. -/
theorem C1_witness :
    strictlyInside (resolve "/srv/repos")
      (resolve (joinPath "/srv/repos" "webapp/site-2")) = true :=
  C1_plain_segments_stay_inside "/srv/repos" "webapp/site-2"
    (by decide) (by decide)

/-- C9: the validator accepts a path exactly when it is non-empty and every
character is in the allow-list (word characters, hyphen, underscore,
forward slash, backslash, dot); consequently any path containing a
character outside the allow-list — such as a space, `;` or `$`, none of
which are allow-listed — is rejected.  The embedding `validate_path` is a
pure function, matching the effect-free `Regex::is_match` call. -/
theorem C9_validator_characterization (s : String) :
    (validate_path s = true ↔
      s.toList ≠ [] ∧ ∀ c ∈ s.toList, isAllowedChar c = true) ∧
    (∀ c ∈ s.toList, isAllowedChar c = false → validate_path s = false) ∧
    isAllowedChar ' ' = false ∧ isAllowedChar ';' = false ∧
    isAllowedChar '$' = false := by
  refine ⟨?_, ?_, by decide, by decide, by decide⟩
  · simp [validate_path, List.all_eq_true, List.isEmpty_iff]
  · intro c hc hbad
    have hall : s.toList.all isAllowedChar = false := by
      rw [List.all_eq_false]
      exact ⟨c, hc, by simp [hbad]⟩
    simp only [validate_path, hall, Bool.and_false]

/-- Witness for `C9_validator_characterization`: the all-allow-listed path
`my-repo_2/v1.0` is accepted, and `a;b` (which contains `;`) is rejected. -/
theorem C9_witness :
    validate_path "my-repo_2/v1.0" = true ∧ validate_path "a;b" = false :=
  ⟨(C9_validator_characterization "my-repo_2/v1.0").1.mpr (by decide),
   (C9_validator_characterization "a;b").2.1 ';' (by decide) (by decide)⟩

/-- C2, as stated, is false of the code: `monitor_restart` clears the latch
before attempting the marker write, and a failed `File::create` is
discarded by the `if let Ok` pattern (main.rs:174) with no retry path.
Starting from an armed latch with a failing write, the cycle leaves the
latch `false` with no marker created, and the following cycle — even with a
write that would succeed — observes no signal and makes no further write
attempt: the pending signal is lost, not retried. -/
theorem C2_counterexample :
    (drainCycle false ⟨true, 0, 0⟩).latch = false ∧
    (drainCycle false ⟨true, 0, 0⟩).writeAttempts = 1 ∧
    (drainCycle false ⟨true, 0, 0⟩).markerWrites = 0 ∧
    (drainCycle true (drainCycle false ⟨true, 0, 0⟩)).writeAttempts = 1 ∧
    (drainCycle true (drainCycle false ⟨true, 0, 0⟩)).markerWrites = 0 := by
  decide

/-- C2 (amended): if the marker-file write fails during a cycle in which
the latch was observed true, the failure is silently discarded (the `Err`
of `File::create` is dropped by `if let Ok` with no log and no further
action) and the latch has already been cleared, so the pending signal is
lost: the next drain cycle observes the latch false and makes no further
write attempt. -/
theorem C2_failed_write_loses_signal (s : DrainState) (h : s.latch = true) :
    (drainCycle false s).latch = false ∧
    (drainCycle false s).writeAttempts = s.writeAttempts + 1 ∧
    (drainCycle false s).markerWrites = s.markerWrites ∧
    ∀ ok, (drainCycle ok (drainCycle false s)).writeAttempts =
      (drainCycle false s).writeAttempts := by
  obtain ⟨l, a, m⟩ := s
  cases h
  simp [drainCycle]

/-- Witness for `C2_failed_write_loses_signal` at the concrete state with
the latch armed and counters 5 and 2. -/
theorem C2_witness :
    (drainCycle false ⟨true, 5, 2⟩).latch = false ∧
    (drainCycle false ⟨true, 5, 2⟩).writeAttempts = 5 + 1 ∧
    (drainCycle false ⟨true, 5, 2⟩).markerWrites = 2 ∧
    ∀ ok, (drainCycle ok (drainCycle false ⟨true, 5, 2⟩)).writeAttempts =
      (drainCycle false ⟨true, 5, 2⟩).writeAttempts :=
  C2_failed_write_loses_signal ⟨true, 5, 2⟩ rfl

theorem armN_latch_true (n : Nat) (s : DrainState) (h : 1 ≤ n) :
    (armN n s).latch = true := by
  induction n generalizing s with
  | zero => omega
  | succ n ih =>
    rw [armN]
    cases n with
    | zero => rfl
    | succ m => exact ih _ (by omega)

theorem armN_counts (n : Nat) (s : DrainState) :
    (armN n s).writeAttempts = s.writeAttempts ∧
    (armN n s).markerWrites = s.markerWrites := by
  induction n generalizing s with
  | zero => exact ⟨rfl, rfl⟩
  | succ n ih => rw [armN]; exact ih (armLatch s)

/-- C8: arming the latch any number `n ≥ 1` of times between two drain
cycles (each arm is the single assignment under the mutex at
main.rs:152-153) leaves the latch simply `true` with the write counters
untouched, and the next drain cycle — whose read-and-clear of the latch
happens inside one mutex acquisition (main.rs:165-170) and is therefore
one atomic step of this model — observes it true and makes exactly one
marker-write attempt, not one per arm, leaving the latch cleared. -/
theorem C8_arms_coalesce (n : Nat) (s : DrainState) (ok : Bool) (h : 1 ≤ n) :
    (armN n s).latch = true ∧
    (armN n s).writeAttempts = s.writeAttempts ∧
    (drainCycle ok (armN n s)).writeAttempts = s.writeAttempts + 1 ∧
    (drainCycle ok (armN n s)).latch = false := by
  have hl := armN_latch_true n s h
  have hc := (armN_counts n s).1
  refine ⟨hl, hc, ?_, ?_⟩ <;> simp [drainCycle, hl, hc]

/-- Witness for `C8_arms_coalesce`: three arms in a row between two drains
produce a single write attempt on the next drain. -/
theorem C8_witness :
    (armN 3 ⟨false, 0, 0⟩).latch = true ∧
    (armN 3 ⟨false, 0, 0⟩).writeAttempts = 0 ∧
    (drainCycle true (armN 3 ⟨false, 0, 0⟩)).writeAttempts = 0 + 1 ∧
    (drainCycle true (armN 3 ⟨false, 0, 0⟩)).latch = false :=
  C8_arms_coalesce 3 ⟨false, 0, 0⟩ true (by decide)

/-- C3 states what the spec and the code's own comment
("// Clean untracked files", main.rs:86) intend, but the call made there
is `Repository::cleanup_state`, which removes the metadata of an
in-progress operation (MERGE_HEAD and friends) and leaves untracked files
in place.  On a repository holding the untracked file `junk.txt`, the
whole sync succeeds (here completing a fast-forward to commit 20) while
`junk.txt` is still present afterwards: the step between the hard reset
and the fetch does not remove untracked files, so the working copy is not
restored to pristine tracked state. -/
theorem C3_untracked_file_survives_sync :
    ∃ r', update_git_repository
        ⟨true, "refs/heads/master", some 10, some 10, some 10, some 10,
         true, ["junk.txt"], true, true, some 20, none, true, true, true,
         true, true⟩ = .ok r' ∧
      r'.untracked = ["junk.txt"] ∧ r'.masterTarget = some 20 ∧
      r'.inProgressOp = false :=
  ⟨_, rfl, rfl, rfl, rfl⟩

/-- C5: whenever the merge analysis after the fetch does not report a
fast-forward, `update_git_repository` returns success having performed no
mutation beyond the reset/clean/fetch steps: the result is exactly
`afterFetchSteps r`, in which the `master` branch pointer, the HEAD
reference and the (already reset) working tree are untouched. -/
theorem C5_non_fast_forward_silent_noop (r : Repo) (c m : Nat)
    (hv : r.valid = true) (hh : r.headCommit = some c)
    (hr : r.resetOk = true) (hcl : r.cleanupOk = true)
    (ho : r.hasOrigin = true) (hf : r.fetchOk = true)
    (hm : r.originMaster = some m) (hff : r.ffAnalysis = false) :
    update_git_repository r = .ok (afterFetchSteps r) ∧
    (afterFetchSteps r).masterTarget = r.masterTarget ∧
    (afterFetchSteps r).headRef = r.headRef ∧
    (afterFetchSteps r).headCommit = r.headCommit := by
  simp [update_git_repository, afterFetchSteps, hv, hh, hr, hcl, ho, hf,
    hm, hff]

/-- Witness for `C5_non_fast_forward_silent_noop` on a concrete diverged
repository: local `master` at commit 10, remote at commit 20, analysis not
fast-forward — the sync succeeds and the branch pointer stays at 10. -/
theorem C5_witness :
    update_git_repository
        ⟨true, "refs/heads/master", some 10, some 10, some 10, some 10,
         false, [], false, true, some 20, none, true, true, true, false,
         true⟩ =
      .ok (afterFetchSteps
        ⟨true, "refs/heads/master", some 10, some 10, some 10, some 10,
         false, [], false, true, some 20, none, true, true, true, false,
         true⟩) ∧
    (afterFetchSteps
        ⟨true, "refs/heads/master", some 10, some 10, some 10, some 10,
         false, [], false, true, some 20, none, true, true, true, false,
         true⟩).masterTarget = some 10 :=
  ⟨(C5_non_fast_forward_silent_noop _ 10 20 rfl rfl rfl rfl rfl rfl rfl
      rfl).1,
   rfl⟩

/-- C4: when the sync step is reached and returns an error, the handler
propagates the error (wrapped as `GitError`, answered as an internal
failure) and the restart latch keeps its previous value — the `?` at
main.rs:149 returns before the assignment at main.rs:152-153; and
conversely the only way the handler changes the latch at all is the
all-success path, which sets it to `true` after `update_git_repository`
has returned `Ok`. -/
theorem C4_latch_armed_only_after_success (cfg : ServerConfig) (w : World)
    (latch : Bool) (req : Request) :
    (∀ e, authOk cfg req = true → validate_path req.subpath = true →
      isDir w (joinPath cfg.git_repo_dir req.subpath) = true →
      update_git_repository
          (repoAt w (joinPath cfg.git_repo_dir req.subpath)) = .error e →
      handle_webhook cfg w latch req = (.error (.GitError e), latch)) ∧
    ((handle_webhook cfg w latch req).2 ≠ latch →
      ∃ r, update_git_repository
          (repoAt w (joinPath cfg.git_repo_dir req.subpath)) = .ok r ∧
        (handle_webhook cfg w latch req).2 = true) := by
  constructor
  · intro e ha hv hd hu
    simp [handle_webhook, ha, hv, hd, hu]
  · intro hne
    by_cases ha : authOk cfg req = true
    · by_cases hv : validate_path req.subpath = true
      · by_cases hd : isDir w (joinPath cfg.git_repo_dir req.subpath) = true
        · cases hu : update_git_repository
              (repoAt w (joinPath cfg.git_repo_dir req.subpath)) with
          | error e => exact absurd (by simp [handle_webhook, ha, hv, hd, hu]) hne
          | ok r => exact ⟨r, rfl, by simp [handle_webhook, ha, hv, hd, hu]⟩
        · exact absurd (by simp [handle_webhook, ha, hv, hd]) hne
      · exact absurd (by simp [handle_webhook, ha, hv]) hne
    · exact absurd (by simp [handle_webhook, ha]) hne

/-- Witness for `C4_latch_armed_only_after_success`: with no secret, the
valid segment `app`, an existing directory that holds no git repository,
the sync fails to open it and the handler answers with the error while the
latch stays `false`. -/
theorem C4_witness :
    handle_webhook ⟨"/srv/repos", none, false⟩ ⟨["/srv/repos/app"], []⟩
        false ⟨"app", none⟩ =
      (.error (.GitError .openFailed), false) :=
  (C4_latch_armed_only_after_success ⟨"/srv/repos", none, false⟩
      ⟨["/srv/repos/app"], []⟩ false ⟨"app", none⟩).1 .openFailed
    rfl (by decide) (by decide) rfl

/-- C6: with no configured secret every request authenticates, whatever
token it carries; with a configured secret, authentication succeeds
exactly when the supplied token is present and equal to the secret, and on
any mismatch — differing value or missing header — the handler rejects the
request as `Unauthorized` without touching the latch. -/
theorem C6_authentication (cfg : ServerConfig) (req : Request) (w : World)
    (latch : Bool) :
    (cfg.security_token = none → authOk cfg req = true) ∧
    (∀ s, cfg.security_token = some s →
      ((authOk cfg req = true ↔ req.token = some s) ∧
       (req.token ≠ some s →
         handle_webhook cfg w latch req = (.error .Unauthorized, latch)))) := by
  constructor
  · intro h
    simp [authOk, h]
  · intro s h
    constructor
    · simp [authOk, h]
    · intro hne
      have ha : authOk cfg req = false := by
        simp [authOk, h, hne]
      simp [handle_webhook, ha]

/-- Witness for `C6_authentication` with the secret `hunter2`: the exact
token authenticates; the near-miss `hunter3` is answered `Unauthorized`. -/
theorem C6_witness :
    authOk ⟨"/r", some "hunter2", false⟩ ⟨"app", some "hunter2"⟩ = true ∧
    handle_webhook ⟨"/r", some "hunter2", false⟩ ⟨[], []⟩ false
        ⟨"app", some "hunter3"⟩ =
      (.error .Unauthorized, false) :=
  ⟨((C6_authentication ⟨"/r", some "hunter2", false⟩ ⟨"app", some "hunter2"⟩
        ⟨[], []⟩ false).2 "hunter2" rfl).1.mpr rfl,
   ((C6_authentication ⟨"/r", some "hunter2", false⟩ ⟨"app", some "hunter3"⟩
        ⟨[], []⟩ false).2 "hunter2" rfl).2 (by decide)⟩

/-- C7: the handler's checks run in the fixed order authentication, path
validation, directory existence, sync; each failure short-circuits with
its distinct response and the success path arms the latch, and
`error_response` maps the outcomes to 401/400/404/500 with 200 on
success. -/
theorem C7_check_order_and_status (cfg : ServerConfig) (w : World)
    (latch : Bool) (req : Request) :
    (authOk cfg req = false →
      handle_webhook cfg w latch req = (.error .Unauthorized, latch) ∧
      responseStatus (handle_webhook cfg w latch req).1 = 401) ∧
    (authOk cfg req = true → validate_path req.subpath = false →
      handle_webhook cfg w latch req =
        (.error (.InvalidPath req.subpath), latch) ∧
      responseStatus (handle_webhook cfg w latch req).1 = 400) ∧
    (authOk cfg req = true → validate_path req.subpath = true →
      isDir w (joinPath cfg.git_repo_dir req.subpath) = false →
      handle_webhook cfg w latch req =
        (.error (.RepoNotFound (joinPath cfg.git_repo_dir req.subpath)),
         latch) ∧
      responseStatus (handle_webhook cfg w latch req).1 = 404) ∧
    (∀ e, authOk cfg req = true → validate_path req.subpath = true →
      isDir w (joinPath cfg.git_repo_dir req.subpath) = true →
      update_git_repository
          (repoAt w (joinPath cfg.git_repo_dir req.subpath)) = .error e →
      handle_webhook cfg w latch req = (.error (.GitError e), latch) ∧
      responseStatus (handle_webhook cfg w latch req).1 = 500) ∧
    (∀ r, authOk cfg req = true → validate_path req.subpath = true →
      isDir w (joinPath cfg.git_repo_dir req.subpath) = true →
      update_git_repository
          (repoAt w (joinPath cfg.git_repo_dir req.subpath)) = .ok r →
      handle_webhook cfg w latch req =
        (.ok ⟨"success", "Repository updated"⟩, true) ∧
      responseStatus (handle_webhook cfg w latch req).1 = 200) := by
  refine ⟨?_, ?_, ?_, ?_, ?_⟩
  · intro ha
    simp [handle_webhook, responseStatus, statusCodeOf, ha]
  · intro ha hv
    simp [handle_webhook, responseStatus, statusCodeOf, ha, hv]
  · intro ha hv hd
    simp [handle_webhook, responseStatus, statusCodeOf, ha, hv, hd]
  · intro e ha hv hd hu
    simp [handle_webhook, responseStatus, statusCodeOf, ha, hv, hd, hu]
  · intro r ha hv hd hu
    simp [handle_webhook, responseStatus, ha, hv, hd, hu]

/-- Witness for `C7_check_order_and_status` on the directory-existence
branch: authenticated request, valid segment, empty filesystem — the
handler answers `RepoNotFound` with HTTP 404 and the latch untouched. -/
theorem C7_witness :
    handle_webhook ⟨"/srv/repos", none, false⟩ ⟨[], []⟩ false ⟨"app", none⟩ =
      (.error (.RepoNotFound (joinPath "/srv/repos" "app")), false) ∧
    responseStatus
        (handle_webhook ⟨"/srv/repos", none, false⟩ ⟨[], []⟩ false
          ⟨"app", none⟩).1 = 404 :=
  (C7_check_order_and_status ⟨"/srv/repos", none, false⟩ ⟨[], []⟩ false
      ⟨"app", none⟩).2.2.1 rfl (by decide) (by decide)

/-- C10: when no secret is configured, the handler's entire outcome —
response and latch alike — is the same for any two requests differing only
in the `X-Security-Token` header (present, absent or differing): the
header is read only inside the `if let Some` branch of main.rs:119, which
is not taken in that configuration. -/
theorem C10_no_secret_noninterference (cfg : ServerConfig) (w : World)
    (latch : Bool) (subpath : String) (t₁ t₂ : Option String)
    (h : cfg.security_token = none) :
    handle_webhook cfg w latch ⟨subpath, t₁⟩ =
      handle_webhook cfg w latch ⟨subpath, t₂⟩ := by
  simp [handle_webhook, authOk, h]

/-- Witness for `C10_no_secret_noninterference`: with no secret, a request
with some token and the same request with none produce identical
outcomes. -/
theorem C10_witness :
    handle_webhook ⟨"/srv/repos", none, false⟩ ⟨[], []⟩ false
        ⟨"app", some "anything"⟩ =
      handle_webhook ⟨"/srv/repos", none, false⟩ ⟨[], []⟩ false
        ⟨"app", none⟩ :=
  C10_no_secret_noninterference ⟨"/srv/repos", none, false⟩ ⟨[], []⟩ false
    "app" (some "anything") none rfl
